import Mathlib

/-!
Shallow embedding of `beancount/ingest/regression.py` (helpers to automate
regression testing of a custom importer) and proofs about it.

The embedding models:
* `find_input_files` (source lines 151-163): `os.walk` traversal plus the
  exclusion regex `.*\.(extract|file_date|file_name|py|pyc)$` applied to the
  final name component, joining surviving names onto the walk root.
* `compare_sample_files` (lines 166-201): capability detection by identity
  comparison of each bound method against the `ImporterProtocol` and
  `compat.Importer` defaults, yielding one (method, filename, name) triple per
  input file and per really-implemented operation.
* the three test methods of `ImportFileTestCase` (lines 41-148), including
  fixture creation on first run, the `getsize > 0` guard of the date and
  filename checks, the null-result assertion failures, the flat-filename
  assertions, and the `ToolNotInstalled` skip conversion.

External collaborators (the extraction engine, the entry printer, the file
cache, the unittest machinery) are modelled as opaque behaviour fields of the
importer, and the fixture directory as a partial map from path to content.
Paths follow POSIX conventions (`os.sep` is `"/"`), matching the platform the
suite targets.
-/

namespace Regression

/-! ## Strings: Python `str.strip`, path predicates -/

/-- Whitespace characters removed by Python `str.strip()` (ASCII part). -/
def isPySpace (c : Char) : Bool :=
  c = ' ' || c = '\t' || c = '\n' || c = '\r' || c = '\x0b' || c = '\x0c'

/-- Strip trailing `isPySpace` characters from a character list. -/
def rstripList (l : List Char) : List Char :=
  ((l.reverse).dropWhile isPySpace).reverse

/-- Strip leading and trailing whitespace from a character list.  The two ends
are stripped independently, so the order (trailing first) is immaterial. -/
def stripList (l : List Char) : List Char :=
  (rstripList l).dropWhile isPySpace

/-- Embedding of Python `str.strip()` with no argument. -/
def pyStrip (s : String) : String := String.mk (stripList s.data)

/-- Whether the first character of a string is `'/'`. -/
def headIsSlash (s : String) : Bool :=
  match s.data with
  | [] => false
  | c :: _ => c = '/'

/-- Whether the last character of a string is `'/'`. -/
def lastIsSlash (s : String) : Bool :=
  match s.data.getLast? with
  | some c => c = '/'
  | none => false

/-- Embedding of `posixpath.isabs`: a path is absolute iff it starts with
`'/'`. -/
def isAbs (s : String) : Bool := headIsSlash s

/-- Embedding of `posixpath.join` for two components, as used by `os.walk`
and by `path.join(sroot, filename)` in `find_input_files`. -/
def pathJoin (a b : String) : String :=
  if headIsSlash b then b
  else if a = "" || lastIsSlash a then a ++ b
  else a ++ "/" ++ b

/-! ## The exclusion regex of `find_input_files`

Source line 161: `re.match(r'.*\.(extract|file_date|file_name|py|pyc)$',
filename)`.  Python semantics: `re.match` anchors the pattern at the start of
the string only; `.` matches any character except a newline; `$` matches at
the end of the string or just before a newline that ends the string.  The
matcher below is specialized to this pattern: it tries, at every position
reachable by `.*` (i.e. after any run of non-newline characters starting at
position 0), to read a literal dot, one of the five alternatives, and then
the `$` condition. -/

/-- Alternatives of the group in the exclusion pattern, in source order. -/
def artifactAlts : List String :=
  ["extract", "file_date", "file_name", "py", "pyc"]

/-- Drop `p` from the front of `s` when `p` is literally there. -/
def stripPre : List Char → List Char → Option (List Char)
  | [], s => some s
  | _ :: _, [] => none
  | p :: ps, c :: cs => if p = c then stripPre ps cs else none

/-- Python `$` (without `MULTILINE`): holds at the end of the string, or just
before a newline that is the last character. -/
def atDollar : List Char → Bool
  | [] => true
  | c :: cs => c = '\n' && cs.isEmpty

/-- Try to match `\.(extract|file_date|file_name|py|pyc)$` at the current
position. -/
def tryDotAlts : List Char → Bool
  | [] => false
  | c :: rest =>
      decide (c = '.') && artifactAlts.any fun alt =>
        match stripPre alt.data rest with
        | some rem => atDollar rem
        | none => false

/-- Match `.*\.(extract|file_date|file_name|py|pyc)$` anchored at the current
position: either the dotted suffix starts here, or the leading `.*` consumes
one more non-newline character. -/
def matchFrom : List Char → Bool
  | [] => false
  | c :: cs => tryDotAlts (c :: cs) || (decide (c ≠ '\n') && matchFrom cs)

/-- Embedding of the `re.match` test on a file name in `find_input_files`. -/
def matchesArtifactRegex (filename : String) : Bool := matchFrom filename.data

/-- The five dotted suffixes the spec speaks about, as whole strings. -/
def artifactSuffixes : List String :=
  [".extract", ".file_date", ".file_name", ".py", ".pyc"]

/-- A file name "ends with one of the artifact suffixes" — the spec wording,
stated on the character list of the name. -/
def endsWithArtifactSuffix (filename : String) : Bool :=
  artifactSuffixes.any fun suf => suf.data.isSuffixOf filename.data

/-! ## Directory trees and `os.walk` -/

/-- A directory: its name, the plain files directly inside it, and its
subdirectories.  `os.walk` reports names only; we embed the file names and
recover full paths with `pathJoin`, as `find_input_files` does. -/
inductive DirTree where
  | node (name : String) (files : List String) (subs : List DirTree)

/-- Name of the directory at the root of the tree. -/
def DirTree.name : DirTree → String
  | node n _ _ => n

mutual

/-- Embedding of `os.walk(root)` (top-down, default options): one
`(sroot, dirnames, filenames)` triple per directory, parents first, then the
subdirectories in order, each rooted at `pathJoin` of its parent root. -/
def DirTree.walk (root : String) : DirTree → List (String × List String × List String)
  | .node _ files subs => (root, DirTree.namesOf subs, files) :: DirTree.walkList root subs

/-- Names of a list of directories (the `dirnames` entry of a walk triple). -/
def DirTree.namesOf : List DirTree → List String
  | [] => []
  | t :: ts => t.name :: DirTree.namesOf ts

/-- Walk each subdirectory in order and concatenate the triples. -/
def DirTree.walkList (root : String) : List DirTree → List (String × List String × List String)
  | [] => []
  | t :: ts => DirTree.walk (pathJoin root t.name) t ++ DirTree.walkList root ts

end

/-- Embedding of `find_input_files(directory)` (source lines 151-163).  The
filesystem argument is `none` when the directory does not exist: `os.walk`
passes the resulting `OSError` to its `onerror` callback, which defaults to
`None`, so the traversal silently yields nothing.  For each walk triple the
source skips every file name matching the exclusion regex and yields
`path.join(sroot, filename)` for the rest, in order. -/
def find_input_files (directory : String) (fsys : Option DirTree) : List String :=
  match fsys with
  | none => []
  | some tree =>
      (DirTree.walk directory tree).flatMap fun pr =>
        (pr.2.2.filter fun filename => !matchesArtifactRegex filename).map (pathJoin pr.1)

/-! ## Dates: `datetime.date`, `strftime('%Y-%m-%d')`, `strptime('%Y-%m-%d')` -/

/-- A calendar date as carried by a Python `datetime.date` value. -/
structure Date where
  year : Nat
  month : Nat
  day : Nat
deriving DecidableEq

/-- Gregorian leap-year rule, as used by `datetime`. -/
def isLeapYear (y : Nat) : Bool :=
  y % 4 = 0 && (y % 100 ≠ 0 || y % 400 = 0)

/-- Length of a month, as used by `datetime` when validating a day. -/
def daysInMonth (y m : Nat) : Nat :=
  if m = 2 then (if isLeapYear y then 29 else 28)
  else if m = 4 ∨ m = 6 ∨ m = 9 ∨ m = 11 then 30
  else 31

/-- The invariant every constructed `datetime.date` satisfies
(`MINYEAR = 1`, `MAXYEAR = 9999`, month and day in range). -/
def Date.valid (dt : Date) : Prop :=
  1 ≤ dt.year ∧ dt.year ≤ 9999 ∧ 1 ≤ dt.month ∧ dt.month ≤ 12 ∧
    1 ≤ dt.day ∧ dt.day ≤ daysInMonth dt.year dt.month

instance (dt : Date) : Decidable dt.valid := by
  unfold Date.valid; infer_instance

/-- The decimal digit character for `n % 10`. -/
def decimalDigit (n : Nat) : Char := Char.ofNat (48 + n % 10)

/-- Numeric value of a decimal digit character. -/
def digitVal (c : Char) : Nat := c.toNat - 48

/-- Two zero-padded decimal digits, as `%m` / `%d` print a value below 100. -/
def pad2 (n : Nat) : List Char := [decimalDigit (n / 10), decimalDigit n]

/-- Four zero-padded decimal digits, as `%Y` prints a year up to 9999. -/
def pad4 (n : Nat) : List Char :=
  [decimalDigit (n / 1000), decimalDigit (n / 100), decimalDigit (n / 10), decimalDigit n]

/-- Embedding of `date.strftime('%Y-%m-%d')`. -/
def formatDate (dt : Date) : String :=
  String.mk (pad4 dt.year ++ ('-' :: pad2 dt.month) ++ ('-' :: pad2 dt.day))

/-- Read one or two leading decimal digits, maximal-munch.  This agrees with
the backtracking regexes CPython compiles for `%m` and `%d` (`1[0-2]|0[1-9]|
[1-9]` and `3[01]|[12]\d|0[1-9]|[1-9]`) once the value range is checked,
because a second digit is consumed exactly when one is present. -/
def parseNum2 : List Char → Option (Nat × List Char)
  | [] => none
  | [c] => if c.isDigit then some (digitVal c, []) else none
  | c :: d :: rest =>
      if c.isDigit then
        if d.isDigit then some (digitVal c * 10 + digitVal d, rest)
        else some (digitVal c, d :: rest)
      else none

/-- Embedding of `datetime.datetime.strptime(s, '%Y-%m-%d').date()`: exactly
four digits, a dash, one or two digits, a dash, one or two digits, nothing
left over; the month and day patterns bound the values, and constructing the
`datetime` validates the calendar (year at least 1, day within the month).
`none` stands for the `ValueError` the call raises otherwise. -/
def parseDate (s : String) : Option Date :=
  match s.data with
  | y1 :: y2 :: y3 :: y4 :: h1 :: rest =>
      if y1.isDigit ∧ y2.isDigit ∧ y3.isDigit ∧ y4.isDigit ∧ h1 = '-' then
        match parseNum2 rest with
        | some (m, h2 :: rest2) =>
            if h2 = '-' then
              match parseNum2 rest2 with
              | some (d, rest3) =>
                  if rest3 = [] then
                    let y := ((digitVal y1 * 10 + digitVal y2) * 10 + digitVal y3) * 10 + digitVal y4
                    if 1 ≤ m ∧ m ≤ 12 ∧ 1 ≤ d ∧ d ≤ 31 ∧ 1 ≤ y ∧ d ≤ daysInMonth y m
                    then some ⟨y, m, d⟩ else none
                  else none
              | none => none
            else none
        | _ => none
      else none
  | _ => none

/-! ## The fixture directory -/

/-- State of the fixture files on disk: content of each path, when the path
exists.  Sample files themselves are only ever read through the importer, so
they need no entry here. -/
def FS := String → Option String

/-- Embedding of `os.path.exists`. -/
def fsExists (fs : FS) (p : String) : Bool := (fs p).isSome

/-- Content read by `open(p, encoding='utf-8').read()`.  Only evaluated under
an `fsExists` guard in the embedded tests, so the default is never hit on a
reachable path. -/
def fsRead (fs : FS) (p : String) : String := (fs p).getD ""

/-- Embedding of `open(p, 'w', encoding='utf-8')` writing `c`. -/
def fsWrite (fs : FS) (p c : String) : FS :=
  fun q => if q = p then some c else fs q

/-- Embedding of `os.path.getsize`.  The source only compares the size with
zero, and the UTF-8 byte count of a content string is zero exactly when its
character count is. -/
def fsSize (fs : FS) (p : String) : Nat := (fsRead fs p).length

/-! ## Verdicts, exceptions, the importer -/

/-- Outcome of one generated test as the enclosing unittest framework records
it: pass, assertion failure (`self.fail` / failed `assert*`), skip
(`self.skipTest` or a `SkipTest` raised by a decorator), or an uncaught
exception surfacing as a framework error. -/
inductive Verdict where
  | passed
  | failed (msg : String)
  | skipped (msg : String)
  | error
deriving DecidableEq

/-- Whether a verdict is a skip. -/
def Verdict.isSkipped : Verdict → Bool
  | skipped _ => true
  | _ => false

/-- Whether a verdict is an assertion failure. -/
def Verdict.isFailed : Verdict → Bool
  | failed _ => true
  | _ => false

/-- What the body of a test method did: settle on a verdict, or raise
`ToolNotInstalled`, or raise some other exception. -/
inductive BodyResult where
  | verdict (v : Verdict)
  | raisedToolNotInstalled
  | raisedOther

/-- Modelled from the spec: the decorator `test_utils.skipIfRaises(
ToolNotInstalled)` wrapping the three test methods.  The module
`beancount/utils/test_utils.py` is not among the sources; per the spec the
wrapper catches the designated tool-not-installed error and converts the run
into a skip, while every other exception propagates uncaught to the test
framework (an error, distinct from an assertion failure). -/
def skipIfRaisesToolNotInstalled : BodyResult × FS → Verdict × FS
  | (.verdict v, fs) => (v, fs)
  | (.raisedToolNotInstalled, fs) => (Verdict.skipped "ToolNotInstalled", fs)
  | (.raisedOther, fs) => (Verdict.error, fs)

/-- Result of invoking one importer operation: a value, or a raised
`ToolNotInstalled`, or any other exception. -/
inductive ExcResult (α : Type) where
  | ok (a : α)
  | toolNotInstalled
  | otherExc

/-- Identity of a bound method's `__func__`, as compared by
`compare_sample_files`: the `ImporterProtocol` default, the `compat.Importer`
default, or a distinct real implementation. -/
inductive MethodImpl where
  | protocolDefault
  | compatDefault
  | custom (id : Nat)
deriving DecidableEq

/-- An importer instance.  The three `*Impl` fields record the identity of
each bound operation (`getattr(importer, name).__func__`).  The three `*Run`
fields give the observable behaviour per sample file name: `extractRun` is
the composite of `extract.extract_from_file` and `printer.print_entries`
rendered to text, `fileDateRun` is `importer.file_date(cache.FileMemo(
filename))`, and `fileNameRun` is `importer.file_name(cache.FileMemo(
filename))`; those collaborators live outside this module and are treated as
part of the importer's behaviour. -/
structure Importer where
  extractImpl : MethodImpl
  fileDateImpl : MethodImpl
  fileNameImpl : MethodImpl
  extractRun : String → ExcResult String
  fileDateRun : String → ExcResult (Option Date)
  fileNameRun : String → ExcResult (Option String)

/-! ## The three test methods of `ImportFileTestCase` -/

/-- Body of `test_expect_extract` (source lines 52-84): render the extracted
entries, then compare against the `.extract` fixture when it exists, else
write the fixture and skip. -/
def test_expect_extract_body (imp : Importer) (filename : String) (fs : FS) :
    BodyResult × FS :=
  match imp.extractRun filename with
  | .toolNotInstalled => (.raisedToolNotInstalled, fs)
  | .otherExc => (.raisedOther, fs)
  | .ok string =>
      let expect_filename := filename ++ ".extract"
      if fsExists fs expect_filename then
        if pyStrip (fsRead fs expect_filename) = pyStrip string then
          (.verdict .passed, fs)
        else
          (.verdict (.failed "assertEqual: extract mismatch"), fs)
      else
        (.verdict (.skipped ("Expected file not present; generating " ++ expect_filename)),
         fsWrite fs expect_filename string)

/-- `test_expect_extract` with its `skipIfRaises(ToolNotInstalled)`
decorator. -/
def test_expect_extract (imp : Importer) (filename : String) (fs : FS) :
    Verdict × FS :=
  skipIfRaisesToolNotInstalled (test_expect_extract_body imp filename fs)

/-- Body of `test_expect_file_date` (source lines 87-114): `self.fail` when
no date is produced; compare against the `.file_date` fixture when it exists
with positive size, parsing it with `strptime`; else write
`date.strftime('%Y-%m-%d')` through `print` (which appends a newline) and
skip. -/
def test_expect_file_date_body (imp : Importer) (filename : String) (fs : FS) :
    BodyResult × FS :=
  match imp.fileDateRun filename with
  | .toolNotInstalled => (.raisedToolNotInstalled, fs)
  | .otherExc => (.raisedOther, fs)
  | .ok none => (.verdict (.failed ("No date produced from " ++ filename)), fs)
  | .ok (some date) =>
      let expect_filename := filename ++ ".file_date"
      if fsExists fs expect_filename ∧ fsSize fs expect_filename > 0 then
        match parseDate (pyStrip (fsRead fs expect_filename)) with
        | none => (.raisedOther, fs)
        | some expect_date =>
            if expect_date = date then (.verdict .passed, fs)
            else (.verdict (.failed "assertEqual: file_date mismatch"), fs)
      else
        (.verdict (.skipped ("Expected file not present; generating " ++ expect_filename)),
         fsWrite fs expect_filename (formatDate date ++ "\n"))

/-- `test_expect_file_date` with its decorator. -/
def test_expect_file_date (imp : Importer) (filename : String) (fs : FS) :
    Verdict × FS :=
  skipIfRaisesToolNotInstalled (test_expect_file_date_body imp filename fs)

/-- Body of `test_expect_file_name` (source lines 117-148): `self.fail` when
no name is produced; assert the name is not absolute and contains no `os.sep`
before and independently of any fixture handling; then compare against the
`.file_name` fixture when it exists with positive size, else write the name
through `print` and skip. -/
def test_expect_file_name_body (imp : Importer) (filename : String) (fs : FS) :
    BodyResult × FS :=
  match imp.fileNameRun filename with
  | .toolNotInstalled => (.raisedToolNotInstalled, fs)
  | .otherExc => (.raisedOther, fs)
  | .ok none => (.verdict (.failed ("No filename produced from " ++ filename)), fs)
  | .ok (some generated_basename) =>
      if isAbs generated_basename then
        (.verdict (.failed generated_basename), fs)
      else if generated_basename.data.contains '/' then
        (.verdict (.failed "assertNotRegex: os.sep found"), fs)
      else
        let expect_filename := filename ++ ".file_name"
        if fsExists fs expect_filename ∧ fsSize fs expect_filename > 0 then
          if pyStrip (fsRead fs expect_filename) = generated_basename then
            (.verdict .passed, fs)
          else
            (.verdict (.failed "assertEqual: file_name mismatch"), fs)
        else
          (.verdict (.skipped ("Expected file not present; generating " ++ expect_filename)),
           fsWrite fs expect_filename (generated_basename ++ "\n"))

/-- `test_expect_file_name` with its decorator. -/
def test_expect_file_name (imp : Importer) (filename : String) (fs : FS) :
    Verdict × FS :=
  skipIfRaisesToolNotInstalled (test_expect_file_name_body imp filename fs)

/-! ## `compare_sample_files` -/

/-- The three operation names iterated by `compare_sample_files`, in source
order. -/
def opNames : List String := ["extract", "file_date", "file_name"]

/-- Dispatch of `getattr(importer, name).__func__` for the three names. -/
def Importer.implOf (imp : Importer) (nm : String) : MethodImpl :=
  if nm = "extract" then imp.extractImpl
  else if nm = "file_date" then imp.fileDateImpl
  else imp.fileNameImpl

/-- The test of `compare_sample_files`: the bound function is one of the two
known defaults (`func is getattr(ImporterProtocol, name) or func is
getattr(compat.Importer, name)`). -/
def isDefaultImpl (mi : MethodImpl) : Bool :=
  mi = MethodImpl.protocolDefault || mi = MethodImpl.compatDefault

/-- Embedding of `compare_sample_files(importer, directory)` after the
directory argument has been resolved (the source's fallback to the module
file of the importer's class and the `path.isfile`/`dirname` step are
environment lookups preceding the generation loop).  For every input file
found by the scanner and every operation whose bound implementation differs
in identity from both defaults, one `(method, filename, name)` triple is
yielded, the method being `test_expect_<name>` on a fresh test case holding
the importer. -/
def compare_sample_files (imp : Importer) (directory : String)
    (fsys : Option DirTree) : List (String × String × String) :=
  (find_input_files directory fsys).flatMap fun filename =>
    opNames.filterMap fun nm =>
      if isDefaultImpl (imp.implOf nm) then none
      else some ("test_expect_" ++ nm, filename, nm)

/-- Number of operations with a real implementation for this importer. -/
def numRealOps (imp : Importer) : Nat :=
  (opNames.filter fun nm => !isDefaultImpl (imp.implOf nm)).length

/-- Scenario harness: run the three checks on one sample file in the order
the generator yields them, threading the fixture directory through. -/
def runChecks (imp : Importer) (filename : String) (fs : FS) :
    (Verdict × Verdict × Verdict) × FS :=
  let r1 := test_expect_extract imp filename fs
  let r2 := test_expect_file_date imp filename r1.2
  let r3 := test_expect_file_name imp filename r2.2
  ((r1.1, r2.1, r3.1), r3.2)

/-! ## Concrete example values used by witnesses and counterexamples -/

/-- An importer overriding all three operations with well-behaved output. -/
def goodImp : Importer where
  extractImpl := .custom 0
  fileDateImpl := .custom 1
  fileNameImpl := .custom 2
  extractRun := fun _ => .ok "2024-01-15 * \"Payee\" \"Narration\"\n"
  fileDateRun := fun _ => .ok (some ⟨2024, 1, 15⟩)
  fileNameRun := fun _ => .ok (some "statement.mybank.csv")

/-- An importer whose date and filename operations return `None`. -/
def nullImp : Importer where
  extractImpl := .custom 0
  fileDateImpl := .custom 1
  fileNameImpl := .custom 2
  extractRun := fun _ => .ok ""
  fileDateRun := fun _ => .ok none
  fileNameRun := fun _ => .ok none

/-- An importer raising `ToolNotInstalled` from every operation. -/
def raisingImp : Importer where
  extractImpl := .custom 0
  fileDateImpl := .custom 1
  fileNameImpl := .custom 2
  extractRun := fun _ => .toolNotInstalled
  fileDateRun := fun _ => .toolNotInstalled
  fileNameRun := fun _ => .toolNotInstalled

/-- An importer producing a file name that contains a path separator. -/
def subdirNameImp : Importer where
  extractImpl := .custom 0
  fileDateImpl := .custom 1
  fileNameImpl := .custom 2
  extractRun := fun _ => .ok ""
  fileDateRun := fun _ => .ok (some ⟨2024, 1, 15⟩)
  fileNameRun := fun _ => .ok (some "sub/out.csv")

/-- An importer overriding only `extract`, the other two operations being the
known defaults. -/
def partialImp : Importer where
  extractImpl := .custom 0
  fileDateImpl := .protocolDefault
  fileNameImpl := .compatDefault
  extractRun := fun _ => .ok ""
  fileDateRun := fun _ => .ok none
  fileNameRun := fun _ => .ok none

/-- A fixture directory with no files at all. -/
def emptyFS : FS := fun _ => none

/-- A fixture directory whose three fixtures for sample `f.csv` exist but are
empty. -/
def emptyFixtureFS : FS := fun q =>
  if q = "f.csv.extract" ∨ q = "f.csv.file_date" ∨ q = "f.csv.file_name" then some ""
  else none

/-- Two qualifying sample files and one excluded `.py` file. -/
def sampleTree : DirTree := .node "samples" ["a.csv", "b.csv", "c.py"] []

/-- File names exercising the newline edge cases of the exclusion pattern. -/
def newlineTree : DirTree := .node "samples" ["a\nb.py", "x.py\n"] []

/-- A two-level tree with ordinary names, one excluded code file and one
excluded fixture. -/
def plainTree : DirTree :=
  .node "samples" ["a.csv", "b.py"] [.node "sub" ["c.txt", "c.txt.extract"] []]

/-! ## Basic lemmas about the fixture store and strings -/

theorem fsExists_write_self (fs : FS) (p c : String) :
    fsExists (fsWrite fs p c) p = true := by
  simp [fsExists, fsWrite]

theorem fsExists_write_ne (fs : FS) (p c q : String) (h : q ≠ p) :
    fsExists (fsWrite fs p c) q = fsExists fs q := by
  simp [fsExists, fsWrite, h]

theorem fsRead_write_self (fs : FS) (p c : String) :
    fsRead (fsWrite fs p c) p = c := by
  simp [fsRead, fsWrite]

theorem fsRead_write_ne (fs : FS) (p c q : String) (h : q ≠ p) :
    fsRead (fsWrite fs p c) q = fsRead fs q := by
  simp [fsRead, fsWrite, h]

theorem string_append_ne (f a b : String) (h : a ≠ b) : f ++ a ≠ f ++ b := by
  intro heq
  apply h
  have hd : f.data ++ a.data = f.data ++ b.data := by
    rw [← String.data_append, ← String.data_append, heq]
  exact String.ext (List.append_cancel_left hd)

theorem isPySpace_newline : isPySpace '\n' = true := by decide

theorem stripList_append_newline (l : List Char) :
    stripList (l ++ ['\n']) = stripList l := by
  unfold stripList rstripList
  rw [List.reverse_append]
  simp [List.dropWhile_cons, isPySpace_newline]

theorem pyStrip_append_newline (s : String) :
    pyStrip (s ++ "\n") = pyStrip s := by
  unfold pyStrip
  rw [String.data_append]
  exact congrArg String.mk (stripList_append_newline s.data)

theorem decimalDigit_not_space (n : Nat) : isPySpace (decimalDigit n) = false := by
  have h : n % 10 < 10 := Nat.mod_lt _ (by norm_num)
  have hall : ∀ k, k < 10 → isPySpace (Char.ofNat (48 + k)) = false := by decide
  exact hall (n % 10) h

theorem decimalDigit_isDigit (n : Nat) : (decimalDigit n).isDigit = true := by
  have h : n % 10 < 10 := Nat.mod_lt _ (by norm_num)
  have hall : ∀ k, k < 10 → (Char.ofNat (48 + k)).isDigit = true := by decide
  exact hall (n % 10) h

theorem digitVal_decimalDigit (n : Nat) : digitVal (decimalDigit n) = n % 10 := by
  have h : n % 10 < 10 := Nat.mod_lt _ (by norm_num)
  have hall : ∀ k, k < 10 → digitVal (Char.ofNat (48 + k)) = k := by decide
  exact hall (n % 10) h

theorem pyStrip_formatDate (dt : Date) : pyStrip (formatDate dt) = formatDate dt := by
  obtain ⟨y, m, d⟩ := dt
  simp [pyStrip, formatDate, pad4, pad2, stripList, rstripList, List.dropWhile,
    decimalDigit_not_space]

theorem daysInMonth_le_31 (y m : Nat) : daysInMonth y m ≤ 31 := by
  unfold daysInMonth
  split
  · split <;> omega
  · split <;> omega

/-- The fixture written by the date check parses back to the same date: the
inverse pair `strftime('%Y-%m-%d')` / `strptime('%Y-%m-%d')` on any date a
`datetime.date` value can carry. -/
theorem parseDate_formatDate (dt : Date) (h : dt.valid) :
    parseDate (formatDate dt) = some dt := by
  obtain ⟨y, m, d⟩ := dt
  simp only [Date.valid] at h
  obtain ⟨hy1, hy2, hm1, hm2, hd1, hd2⟩ := h
  have hd31 : d ≤ 31 := le_trans hd2 (daysInMonth_le_31 y m)
  have hm : digitVal (decimalDigit (m / 10)) * 10 + digitVal (decimalDigit m) = m := by
    rw [digitVal_decimalDigit, digitVal_decimalDigit]; omega
  have hd : digitVal (decimalDigit (d / 10)) * 10 + digitVal (decimalDigit d) = d := by
    rw [digitVal_decimalDigit, digitVal_decimalDigit]; omega
  have hy : ((digitVal (decimalDigit (y / 1000)) * 10 + digitVal (decimalDigit (y / 100))) * 10
      + digitVal (decimalDigit (y / 10))) * 10 + digitVal (decimalDigit y) = y := by
    simp only [digitVal_decimalDigit]; omega
  simp only [formatDate, pad4, pad2, List.cons_append, List.nil_append]
  simp only [parseDate, parseNum2, decimalDigit_isDigit, hm, hd, hy]
  simp [decimalDigit_isDigit, hm, hd, hy, hy1, hy2, hm1, hm2, hd1, hd2, hd31]

/-! ## Lemmas about the exclusion pattern -/

theorem stripPre_eq_some (p : List Char) : ∀ s r : List Char,
    stripPre p s = some r ↔ s = p ++ r := by
  induction p with
  | nil =>
      intro s r
      simp [stripPre]
  | cons c ps ih =>
      intro s r
      cases s with
      | nil => simp [stripPre]
      | cons a as =>
          by_cases h : c = a
          · subst h
            simp [stripPre, ih]
          · simp only [stripPre, if_neg h]
            simp [List.cons_eq_cons]
            intro hcon
            exact absurd hcon.symm h

/-- On a newline-free input, the dotted-suffix attempt succeeds exactly when
the whole remaining input is a dot followed by one of the alternatives. -/
theorem tryDotAlts_eq_true (s : List Char) (hnl : '\n' ∉ s) :
    tryDotAlts s = true ↔ ∃ alt ∈ artifactAlts, s = '.' :: alt.data := by
  cases s with
  | nil =>
      simp [tryDotAlts]
  | cons c rest =>
      simp only [tryDotAlts, Bool.and_eq_true, decide_eq_true_eq, List.any_eq_true]
      constructor
      · rintro ⟨hc, alt, halt, hmatch⟩
        rcases hsp : stripPre alt.data rest with _ | rem
        · rw [hsp] at hmatch
          exact absurd hmatch (by simp)
        · rw [hsp] at hmatch
          have hrest : rest = alt.data ++ rem := (stripPre_eq_some alt.data rest rem).1 hsp
          cases rem with
          | nil =>
              refine ⟨alt, halt, ?_⟩
              rw [hc, hrest, List.append_nil]
          | cons r rs =>
              exfalso
              have hr : r = '\n' ∧ rs.isEmpty = true := by
                simpa [atDollar] using hmatch
              apply hnl
              rw [hrest, hr.1]
              exact List.mem_cons_of_mem _ (List.mem_append_right _ (List.mem_cons_self _ _))
      · rintro ⟨alt, halt, heq⟩
        have hc : c = '.' := (List.cons_eq_cons.1 heq).1
        have hrest : rest = alt.data := (List.cons_eq_cons.1 heq).2
        refine ⟨hc, alt, halt, ?_⟩
        have hsp : stripPre alt.data rest = some [] := by
          rw [stripPre_eq_some, hrest, List.append_nil]
        rw [hsp]
        rfl

/-- On a newline-free input, the anchored pattern matches exactly when some
dotted alternative is a suffix of the input. -/
theorem matchFrom_eq_true (l : List Char) (hnl : '\n' ∉ l) :
    matchFrom l = true ↔ ∃ alt ∈ artifactAlts, ('.' :: alt.data) <:+ l := by
  induction l with
  | nil =>
      simp [matchFrom]
  | cons c cs ih =>
      have hc : c ≠ '\n' := fun h => hnl (h ▸ List.mem_cons_self _ _)
      have hcs : '\n' ∉ cs := fun h => hnl (List.mem_cons_of_mem _ h)
      simp only [matchFrom, Bool.or_eq_true, Bool.and_eq_true, decide_eq_true_eq]
      rw [tryDotAlts_eq_true _ hnl, ih hcs]
      constructor
      · rintro (⟨alt, halt, heq⟩ | ⟨_, alt, halt, hsuf⟩)
        · exact ⟨alt, halt, heq ▸ List.suffix_refl _⟩
        · exact ⟨alt, halt, hsuf.trans (List.suffix_cons c cs)⟩
      · rintro ⟨alt, halt, hsuf⟩
        rcases List.suffix_cons_iff.1 hsuf with h | h
        · exact Or.inl ⟨alt, halt, h.symm⟩
        · exact Or.inr ⟨hc, alt, halt, h⟩

theorem dotAlts_suffix_iff (l : List Char) :
    (∃ alt ∈ artifactAlts, ('.' :: alt.data) <:+ l)
      ↔ ∃ suf ∈ artifactSuffixes, suf.data <:+ l := by
  constructor
  · rintro ⟨alt, halt, hsuf⟩
    fin_cases halt
    · exact ⟨".extract", by decide, hsuf⟩
    · exact ⟨".file_date", by decide, hsuf⟩
    · exact ⟨".file_name", by decide, hsuf⟩
    · exact ⟨".py", by decide, hsuf⟩
    · exact ⟨".pyc", by decide, hsuf⟩
  · rintro ⟨suf, hsuf, hs⟩
    fin_cases hsuf
    · exact ⟨"extract", by decide, hs⟩
    · exact ⟨"file_date", by decide, hs⟩
    · exact ⟨"file_name", by decide, hs⟩
    · exact ⟨"py", by decide, hs⟩
    · exact ⟨"pyc", by decide, hs⟩

theorem endsWithArtifactSuffix_iff (nm : String) :
    endsWithArtifactSuffix nm = true ↔ ∃ suf ∈ artifactSuffixes, suf.data <:+ nm.data := by
  simp [endsWithArtifactSuffix, List.any_eq_true, List.isSuffixOf_iff_suffix]

/-- On a file name free of newlines, the exclusion regex decides exactly
"ends with one of the five dotted suffixes". -/
theorem matchesArtifactRegex_eq_endsWith (nm : String) (hnl : '\n' ∉ nm.data) :
    matchesArtifactRegex nm = endsWithArtifactSuffix nm := by
  rw [Bool.eq_iff_iff]
  unfold matchesArtifactRegex
  rw [matchFrom_eq_true nm.data hnl, dotAlts_suffix_iff, endsWithArtifactSuffix_iff]

theorem scanner_filter_congr (L : List (String × List String × List String))
    (hnl : ∀ pr ∈ L, ∀ nm ∈ pr.2.2, '\n' ∉ nm.data) :
    (L.flatMap fun pr =>
        (pr.2.2.filter fun nm => !matchesArtifactRegex nm).map (pathJoin pr.1))
      = L.flatMap fun pr =>
        (pr.2.2.filter fun nm => !endsWithArtifactSuffix nm).map (pathJoin pr.1) := by
  induction L with
  | nil => rfl
  | cons pr L ih =>
      simp only [List.flatMap_cons]
      rw [ih fun q hq nm hm => hnl q (List.mem_cons_of_mem _ hq) nm hm]
      have hfil : pr.2.2.filter (fun nm => !matchesArtifactRegex nm)
          = pr.2.2.filter fun nm => !endsWithArtifactSuffix nm := by
        apply List.filter_congr
        intro nm hm
        rw [matchesArtifactRegex_eq_endsWith nm (hnl pr (List.mem_cons_self _ _) nm hm)]
      rw [hfil]

/-! ## Counting lemmas for the generator -/

theorem length_filterMap_guard {α β : Type} (p : α → Bool) (g : α → β) (L : List α) :
    (L.filterMap fun a => if p a then none else some (g a)).length
      = (L.filter fun a => !p a).length := by
  induction L with
  | nil => rfl
  | cons a l ih =>
      by_cases h : p a <;> simp [List.filterMap_cons, List.filter_cons, h, ih]

theorem flatMap_const_length {α β : Type} (f : α → List β) (c : Nat) (L : List α)
    (h : ∀ a, (f a).length = c) :
    (L.flatMap f).length = L.length * c := by
  induction L with
  | nil => simp
  | cons a l ih =>
      simp only [List.flatMap_cons, List.length_append, ih, h a, List.length_cons]
      ring

/-! ## The claims -/

/-- Claim C1: for every importer and directory, `compare_sample_files` yields
exactly (number of files found by the scanner) times (number of the three
operations whose bound implementation differs in identity from both the
`ImporterProtocol` default and the `compat.Importer` default) triples, and
every yielded triple carries an operation with a real implementation — so an
operation the importer does not override generates zero triples for any
file. -/
theorem compare_sample_files_count (imp : Importer) (directory : String)
    (fsys : Option DirTree) :
    (compare_sample_files imp directory fsys).length
      = (find_input_files directory fsys).length * numRealOps imp
    ∧ ∀ t ∈ compare_sample_files imp directory fsys,
        isDefaultImpl (imp.implOf t.2.2) = false := by
  constructor
  · unfold compare_sample_files
    refine flatMap_const_length _ _ _ fun filename => ?_
    rw [length_filterMap_guard (fun nm => isDefaultImpl (imp.implOf nm))
      (fun nm => ("test_expect_" ++ nm, filename, nm)) opNames]
    rfl
  · intro t ht
    simp only [compare_sample_files, List.mem_flatMap, List.mem_filterMap] at ht
    obtain ⟨f, _, nm, _, heq⟩ := ht
    by_cases h : isDefaultImpl (imp.implOf nm)
    · simp [h] at heq
    · rw [if_neg h] at heq
      have ht2 : t.2.2 = nm := by
        cases heq
        rfl
      rw [ht2, Bool.not_eq_true] at *
      exact h

/-- Witness for C1: an importer overriding only `extract`, over a directory
with two qualifying sample files and one excluded `.py` file, yields exactly
2 x 1 triples. -/
theorem compare_sample_files_count_witness :
    (compare_sample_files partialImp "samples" (some sampleTree)).length = 2 * 1 := by
  have h := (compare_sample_files_count partialImp "samples" (some sampleTree)).1
  rw [h]
  decide

/-- Claim C2, counterexample: with no fixture present, the date check of an
importer whose date operation returns `None` is reported as a failure, not a
skip, and creates no fixture — refuting "if the fixture does not exist, the
check creates it and its verdict is skipped" as stated for all checks. -/
theorem missing_fixture_not_always_skip :
    emptyFS "statement.csv.file_date" = none
    ∧ (test_expect_file_date nullImp "statement.csv" emptyFS).1.isSkipped = false
    ∧ (test_expect_file_date nullImp "statement.csv" emptyFS).1.isFailed = true
    ∧ fsExists (test_expect_file_date nullImp "statement.csv" emptyFS).2
        "statement.csv.file_date" = false :=
  ⟨rfl, rfl, rfl, rfl⟩

/-- Claim C2 as amended: if the fixture does not exist and the operation
under test completes without raising and returns a usable value (a rendered
extract string; a non-None date; a non-None, relative, separator-free file
name), then the check creates the fixture with the fresh output and its
verdict is skipped, never passed or failed. -/
theorem missing_fixture_skip_and_create (imp : Importer) (filename : String) (fs : FS)
    (s : String) (dt : Date) (nm : String) :
    (imp.extractRun filename = .ok s → fs (filename ++ ".extract") = none →
      (test_expect_extract imp filename fs).1.isSkipped = true
      ∧ (test_expect_extract imp filename fs).2
          = fsWrite fs (filename ++ ".extract") s)
    ∧ (imp.fileDateRun filename = .ok (some dt) → fs (filename ++ ".file_date") = none →
      (test_expect_file_date imp filename fs).1.isSkipped = true
      ∧ (test_expect_file_date imp filename fs).2
          = fsWrite fs (filename ++ ".file_date") (formatDate dt ++ "\n"))
    ∧ (imp.fileNameRun filename = .ok (some nm) → isAbs nm = false →
        nm.data.contains '/' = false → fs (filename ++ ".file_name") = none →
      (test_expect_file_name imp filename fs).1.isSkipped = true
      ∧ (test_expect_file_name imp filename fs).2
          = fsWrite fs (filename ++ ".file_name") (nm ++ "\n")) := by
  refine ⟨fun h habsent => ?_, fun h habsent => ?_, fun h hA hS habsent => ?_⟩
  · simp [test_expect_extract, test_expect_extract_body, h, skipIfRaisesToolNotInstalled,
      fsExists, habsent, Verdict.isSkipped]
  · simp [test_expect_file_date, test_expect_file_date_body, h, skipIfRaisesToolNotInstalled,
      fsExists, habsent, Verdict.isSkipped]
  · have hS2 : '/' ∉ nm.data := by simpa using hS
    simp [test_expect_file_name, test_expect_file_name_body, h, hA, hS2,
      skipIfRaisesToolNotInstalled, fsExists, habsent, Verdict.isSkipped]

/-- Witness for the amended C2 at a concrete importer and empty directory:
all three first runs are skips. -/
theorem missing_fixture_skip_and_create_witness :
    (test_expect_extract goodImp "statement.csv" emptyFS).1.isSkipped = true
    ∧ (test_expect_file_date goodImp "statement.csv" emptyFS).1.isSkipped = true
    ∧ (test_expect_file_name goodImp "statement.csv" emptyFS).1.isSkipped = true :=
  ⟨((missing_fixture_skip_and_create goodImp "statement.csv" emptyFS
      "2024-01-15 * \"Payee\" \"Narration\"\n" ⟨2024, 1, 15⟩ "statement.mybank.csv").1
        rfl rfl).1,
   ((missing_fixture_skip_and_create goodImp "statement.csv" emptyFS
      "2024-01-15 * \"Payee\" \"Narration\"\n" ⟨2024, 1, 15⟩ "statement.mybank.csv").2.1
        rfl rfl).1,
   ((missing_fixture_skip_and_create goodImp "statement.csv" emptyFS
      "2024-01-15 * \"Payee\" \"Narration\"\n" ⟨2024, 1, 15⟩ "statement.mybank.csv").2.2
        rfl (by decide) (by decide) rfl).1⟩

/-- Claim C3: whenever the importer's filename operation returns a non-null
name that is absolute or contains a path separator, the filename check is an
assertion failure and leaves the fixture directory untouched, for every
fixture state — the shape assertion runs before and independently of any
fixture comparison. -/
theorem bad_filename_always_fails (imp : Importer) (filename : String) (fs : FS)
    (nm : String)
    (h : imp.fileNameRun filename = .ok (some nm))
    (hbad : isAbs nm = true ∨ nm.data.contains '/' = true) :
    (test_expect_file_name imp filename fs).1.isFailed = true
    ∧ (test_expect_file_name imp filename fs).2 = fs := by
  by_cases ha : isAbs nm = true
  · simp [test_expect_file_name, test_expect_file_name_body, h, ha,
      skipIfRaisesToolNotInstalled, Verdict.isFailed]
  · rcases hbad with hb | hb
    · exact absurd hb ha
    · have hb2 : '/' ∈ nm.data := by simpa using hb
      simp [test_expect_file_name, test_expect_file_name_body, h, ha, hb2,
        skipIfRaisesToolNotInstalled, Verdict.isFailed]

/-- Witness for C3: the importer returning `sub/out.csv` fails the filename
check on an empty fixture directory. -/
theorem bad_filename_always_fails_witness :
    (isAbs "sub/out.csv" = true ∨ ("sub/out.csv").data.contains '/' = true)
    ∧ (test_expect_file_name subdirNameImp "f.csv" emptyFS).1.isFailed = true :=
  ⟨Or.inr (by decide),
   (bad_filename_always_fails subdirNameImp "f.csv" emptyFS "sub/out.csv" rfl
      (Or.inr (by decide))).1⟩

/-- Claim C4: a `None` from the date operation makes the date check fail with
the explicit assertion message, and a `None` from the filename operation makes
the filename check fail likewise; in both cases the verdict is a failure, not
a skip, and the fixture directory is unchanged. -/
theorem null_result_is_assertion_failure (imp : Importer) (filename : String) (fs : FS) :
    (imp.fileDateRun filename = .ok none →
      test_expect_file_date imp filename fs
        = (Verdict.failed ("No date produced from " ++ filename), fs))
    ∧ (imp.fileNameRun filename = .ok none →
      test_expect_file_name imp filename fs
        = (Verdict.failed ("No filename produced from " ++ filename), fs)) := by
  constructor
  · intro h
    simp [test_expect_file_date, test_expect_file_date_body, h, skipIfRaisesToolNotInstalled]
  · intro h
    simp [test_expect_file_name, test_expect_file_name_body, h, skipIfRaisesToolNotInstalled]

/-- Witness for C4 at an importer returning `None` for both operations. -/
theorem null_result_is_assertion_failure_witness :
    test_expect_file_date nullImp "statement.csv" emptyFS
        = (Verdict.failed ("No date produced from " ++ "statement.csv"), emptyFS)
    ∧ test_expect_file_name nullImp "statement.csv" emptyFS
        = (Verdict.failed ("No filename produced from " ++ "statement.csv"), emptyFS) :=
  ⟨(null_result_is_assertion_failure nullImp "statement.csv" emptyFS).1 rfl,
   (null_result_is_assertion_failure nullImp "statement.csv" emptyFS).2 rfl⟩

/-- Claim C5: for each of the three checks, a `ToolNotInstalled` raised inside
the body converts the run into a skip (leaving the fixture directory
untouched), while any other exception propagates to the framework as an
error, never a skip or an assertion failure. -/
theorem tool_not_installed_skips (imp : Importer) (filename : String) (fs : FS) :
    (imp.extractRun filename = .toolNotInstalled →
      (test_expect_extract imp filename fs).1.isSkipped = true
        ∧ (test_expect_extract imp filename fs).2 = fs)
    ∧ (imp.fileDateRun filename = .toolNotInstalled →
      (test_expect_file_date imp filename fs).1.isSkipped = true
        ∧ (test_expect_file_date imp filename fs).2 = fs)
    ∧ (imp.fileNameRun filename = .toolNotInstalled →
      (test_expect_file_name imp filename fs).1.isSkipped = true
        ∧ (test_expect_file_name imp filename fs).2 = fs)
    ∧ (imp.extractRun filename = .otherExc →
      test_expect_extract imp filename fs = (Verdict.error, fs))
    ∧ (imp.fileDateRun filename = .otherExc →
      test_expect_file_date imp filename fs = (Verdict.error, fs))
    ∧ (imp.fileNameRun filename = .otherExc →
      test_expect_file_name imp filename fs = (Verdict.error, fs)) := by
  refine ⟨fun h => ?_, fun h => ?_, fun h => ?_, fun h => ?_, fun h => ?_, fun h => ?_⟩ <;>
    simp [test_expect_extract, test_expect_extract_body,
      test_expect_file_date, test_expect_file_date_body,
      test_expect_file_name, test_expect_file_name_body,
      h, skipIfRaisesToolNotInstalled, Verdict.isSkipped]

/-- Witness for C5: the importer raising `ToolNotInstalled` everywhere is
skipped by all three checks. -/
theorem tool_not_installed_skips_witness :
    (test_expect_extract raisingImp "f.csv" emptyFS).1.isSkipped = true
    ∧ (test_expect_file_date raisingImp "f.csv" emptyFS).1.isSkipped = true
    ∧ (test_expect_file_name raisingImp "f.csv" emptyFS).1.isSkipped = true :=
  ⟨((tool_not_installed_skips raisingImp "f.csv" emptyFS).1 rfl).1,
   ((tool_not_installed_skips raisingImp "f.csv" emptyFS).2.1 rfl).1,
   ((tool_not_installed_skips raisingImp "f.csv" emptyFS).2.2.1 rfl).1⟩

/-- Claim C6, counterexample: file names may contain newlines, and on those
the exclusion regex is not "ends with one of the suffixes": `a\nb.py` ends
with `.py` yet is yielded by the scanner (the `.*` of the anchored pattern
cannot cross a newline), while `x.py\n` does not end with any suffix yet is
never yielded (`$` also matches just before a trailing newline). -/
theorem scanner_newline_counterexample :
    endsWithArtifactSuffix "a\nb.py" = true
    ∧ "samples/a\nb.py" ∈ find_input_files "samples" (some newlineTree)
    ∧ endsWithArtifactSuffix "x.py\n" = false
    ∧ "samples/x.py\n" ∉ find_input_files "samples" (some newlineTree) :=
  ⟨by decide, by decide, by decide, by decide⟩

/-- Claim C6 as amended: over any directory tree whose file names are free of
newline characters, the scanner yields exactly the walked files whose final
name component does not end with one of `.extract`, `.file_date`,
`.file_name`, `.py`, `.pyc`, each joined onto its walk root. -/
theorem find_input_files_suffix_filter (directory : String) (tree : DirTree)
    (hnl : ∀ pr ∈ DirTree.walk directory tree, ∀ nm ∈ pr.2.2, '\n' ∉ nm.data) :
    find_input_files directory (some tree)
      = (DirTree.walk directory tree).flatMap fun pr =>
          (pr.2.2.filter fun nm => !endsWithArtifactSuffix nm).map (pathJoin pr.1) := by
  unfold find_input_files
  exact scanner_filter_congr _ hnl

/-- Witness for the amended C6 on a two-level tree: the suffix-based
description holds and evaluates to the two expected survivors. -/
theorem find_input_files_suffix_filter_witness :
    find_input_files "samples" (some plainTree)
      = (DirTree.walk "samples" plainTree).flatMap (fun pr =>
          (pr.2.2.filter fun nm => !endsWithArtifactSuffix nm).map (pathJoin pr.1))
    ∧ find_input_files "samples" (some plainTree)
        = ["samples/a.csv", "samples/sub/c.txt"] :=
  ⟨find_input_files_suffix_filter "samples" plainTree (by decide), by decide⟩

/-- Claim C7: on a sample file whose importer deterministically overrides all
three operations — returning a rendered extract, a non-null valid date, and a
flat relative whitespace-clean file name — and with no fixtures present, the
first invocation of the three checks yields three skips and creates the three
fixture files, and a second invocation against the fixtures just written
yields three passes. -/
theorem first_run_skips_second_run_passes (imp : Importer) (f : String) (fs : FS)
    (s : String) (dt : Date) (nm : String)
    (hex : imp.extractRun f = .ok s)
    (hdt : imp.fileDateRun f = .ok (some dt))
    (hnm : imp.fileNameRun f = .ok (some nm))
    (hvalid : dt.valid)
    (habs : isAbs nm = false)
    (hsep : nm.data.contains '/' = false)
    (htrim : pyStrip nm = nm)
    (hfsE : fs (f ++ ".extract") = none)
    (hfsD : fs (f ++ ".file_date") = none)
    (hfsN : fs (f ++ ".file_name") = none) :
    ((runChecks imp f fs).1.1.isSkipped = true
      ∧ (runChecks imp f fs).1.2.1.isSkipped = true
      ∧ (runChecks imp f fs).1.2.2.isSkipped = true)
    ∧ (fsExists (runChecks imp f fs).2 (f ++ ".extract") = true
      ∧ fsExists (runChecks imp f fs).2 (f ++ ".file_date") = true
      ∧ fsExists (runChecks imp f fs).2 (f ++ ".file_name") = true)
    ∧ (runChecks imp f (runChecks imp f fs).2).1
        = (Verdict.passed, Verdict.passed, Verdict.passed) := by
  have dDE : f ++ ".file_date" ≠ f ++ ".extract" := string_append_ne f _ _ (by decide)
  have dNE : f ++ ".file_name" ≠ f ++ ".extract" := string_append_ne f _ _ (by decide)
  have dND : f ++ ".file_name" ≠ f ++ ".file_date" := string_append_ne f _ _ (by decide)
  have dED : f ++ ".extract" ≠ f ++ ".file_date" := dDE.symm
  have dEN : f ++ ".extract" ≠ f ++ ".file_name" := dNE.symm
  have dDN : f ++ ".file_date" ≠ f ++ ".file_name" := dND.symm
  have hsep2 : '/' ∉ nm.data := by simpa using hsep
  have step1 : test_expect_extract imp f fs
      = (Verdict.skipped ("Expected file not present; generating " ++ (f ++ ".extract")),
         fsWrite fs (f ++ ".extract") s) := by
    simp [test_expect_extract, test_expect_extract_body, hex,
      skipIfRaisesToolNotInstalled, fsExists, hfsE]
  set fs1 : FS := fsWrite fs (f ++ ".extract") s with hfs1
  have hfs1D : fs1 (f ++ ".file_date") = none := by
    simp [hfs1, fsWrite, dDE, hfsD]
  have hfs1N : fs1 (f ++ ".file_name") = none := by
    simp [hfs1, fsWrite, dNE, hfsN]
  have step2 : test_expect_file_date imp f fs1
      = (Verdict.skipped ("Expected file not present; generating " ++ (f ++ ".file_date")),
         fsWrite fs1 (f ++ ".file_date") (formatDate dt ++ "\n")) := by
    simp [test_expect_file_date, test_expect_file_date_body, hdt,
      skipIfRaisesToolNotInstalled, fsExists, hfs1D]
  set fs2 : FS := fsWrite fs1 (f ++ ".file_date") (formatDate dt ++ "\n") with hfs2
  have hfs2N : fs2 (f ++ ".file_name") = none := by
    simp [hfs2, fsWrite, dND, hfs1N]
  have step3 : test_expect_file_name imp f fs2
      = (Verdict.skipped ("Expected file not present; generating " ++ (f ++ ".file_name")),
         fsWrite fs2 (f ++ ".file_name") (nm ++ "\n")) := by
    simp [test_expect_file_name, test_expect_file_name_body, hnm, habs, hsep2,
      skipIfRaisesToolNotInstalled, fsExists, hfs2N]
  set fs3 : FS := fsWrite fs2 (f ++ ".file_name") (nm ++ "\n") with hfs3
  have hrun1 : runChecks imp f fs =
      ((Verdict.skipped ("Expected file not present; generating " ++ (f ++ ".extract")),
        Verdict.skipped ("Expected file not present; generating " ++ (f ++ ".file_date")),
        Verdict.skipped ("Expected file not present; generating " ++ (f ++ ".file_name"))),
       fs3) := by
    simp only [runChecks, step1, step2, step3]
  have vE : fs3 (f ++ ".extract") = some s := by
    simp [hfs3, hfs2, hfs1, fsWrite, dEN, dED]
  have vD : fs3 (f ++ ".file_date") = some (formatDate dt ++ "\n") := by
    simp [hfs3, hfs2, fsWrite, dDN]
  have vN : fs3 (f ++ ".file_name") = some (nm ++ "\n") := by
    simp [hfs3, fsWrite]
  have pass1 : test_expect_extract imp f fs3 = (Verdict.passed, fs3) := by
    simp [test_expect_extract, test_expect_extract_body, hex,
      skipIfRaisesToolNotInstalled, fsExists, fsRead, vE]
  have hlenD : 0 < fsSize fs3 (f ++ ".file_date") := by
    rw [fsSize, fsRead, vD, Option.getD_some, String.length_append]
    have hone : ("\n").length = 1 := rfl
    omega
  have pass2 : test_expect_file_date imp f fs3 = (Verdict.passed, fs3) := by
    simp [test_expect_file_date, test_expect_file_date_body, hdt,
      skipIfRaisesToolNotInstalled, fsExists, fsRead, vD, hlenD,
      pyStrip_append_newline, pyStrip_formatDate, parseDate_formatDate dt hvalid]
  have hlenN : 0 < fsSize fs3 (f ++ ".file_name") := by
    rw [fsSize, fsRead, vN, Option.getD_some, String.length_append]
    have hone : ("\n").length = 1 := rfl
    omega
  have pass3 : test_expect_file_name imp f fs3 = (Verdict.passed, fs3) := by
    simp [test_expect_file_name, test_expect_file_name_body, hnm, habs, hsep2,
      skipIfRaisesToolNotInstalled, fsExists, fsRead, vN, hlenN,
      pyStrip_append_newline, htrim]
  refine ⟨?_, ?_, ?_⟩
  · rw [hrun1]
    exact ⟨rfl, rfl, rfl⟩
  · rw [hrun1]
    simp only [fsExists, vE, vD, vN, Option.isSome_some, and_self]
  · rw [hrun1]
    simp only [runChecks, pass1, pass2, pass3]

/-- Witness for C7: the concrete well-behaved importer on `statement.csv`
over an empty directory skips three times, then passes three times. -/
theorem first_run_skips_second_run_passes_witness :
    ((runChecks goodImp "statement.csv" emptyFS).1.1.isSkipped = true
      ∧ (runChecks goodImp "statement.csv" emptyFS).1.2.1.isSkipped = true
      ∧ (runChecks goodImp "statement.csv" emptyFS).1.2.2.isSkipped = true)
    ∧ (runChecks goodImp "statement.csv"
        ((runChecks goodImp "statement.csv" emptyFS).2)).1
        = (Verdict.passed, Verdict.passed, Verdict.passed) := by
  have h := first_run_skips_second_run_passes goodImp "statement.csv" emptyFS
    "2024-01-15 * \"Payee\" \"Narration\"\n" ⟨2024, 1, 15⟩ "statement.mybank.csv"
    rfl rfl rfl (by decide) (by decide) (by decide) (by decide) rfl rfl rfl
  exact ⟨h.1, h.2.2⟩

/-- Claim C8: a missing root directory makes the scanner yield the empty
sequence (`os.walk` reports the error to its default `onerror=None` handler,
which swallows it). -/
theorem scanner_missing_directory_empty (directory : String) :
    find_input_files directory none = [] := rfl

/-- Claim C9 evaluated at its failing input: with the relative root
`samples`, the scanner yields the relative path `samples/a.csv`, contradicting
its own docstring ("the absolute filenames of sample input and expected
files") and the claim that every yielded path is absolute. -/
theorem scanner_relative_root_yields_relative_path :
    find_input_files "samples" (some (DirTree.node "samples" ["a.csv"] []))
      = ["samples/a.csv"]
    ∧ isAbs "samples/a.csv" = false := ⟨by decide, by decide⟩

/-- Claim C10: an existing but empty `.extract` fixture is taken as the
golden output (the check compares and fails whenever the trimmed fresh output
is nonempty, passes when it is empty), whereas existing but empty
`.file_date` and `.file_name` fixtures are treated as absent: those checks
overwrite them with fresh output and report a skip, because they additionally
require the fixture size to be positive. -/
theorem empty_fixture_asymmetry (imp : Importer) (filename : String) (fs : FS)
    (s : String) (dt : Date) (nm : String) :
    (imp.extractRun filename = .ok s → fs (filename ++ ".extract") = some "" →
      ((pyStrip s ≠ "" → (test_expect_extract imp filename fs).1.isFailed = true)
       ∧ (pyStrip s = "" → (test_expect_extract imp filename fs).1 = Verdict.passed)
       ∧ (test_expect_extract imp filename fs).2 = fs))
    ∧ (imp.fileDateRun filename = .ok (some dt) → fs (filename ++ ".file_date") = some "" →
      (test_expect_file_date imp filename fs).1.isSkipped = true
      ∧ (test_expect_file_date imp filename fs).2
          = fsWrite fs (filename ++ ".file_date") (formatDate dt ++ "\n"))
    ∧ (imp.fileNameRun filename = .ok (some nm) → isAbs nm = false →
        nm.data.contains '/' = false → fs (filename ++ ".file_name") = some "" →
      (test_expect_file_name imp filename fs).1.isSkipped = true
      ∧ (test_expect_file_name imp filename fs).2
          = fsWrite fs (filename ++ ".file_name") (nm ++ "\n")) := by
  refine ⟨fun h hfix => ⟨fun hne => ?_, fun heq => ?_, ?_⟩, fun h hfix => ?_,
    fun h hA hS hfix => ?_⟩
  · have hcmp : ¬(pyStrip (fsRead fs (filename ++ ".extract")) = pyStrip s) := by
      rw [fsRead, hfix]
      intro hcon
      exact hne (by simpa [pyStrip, stripList, rstripList] using hcon.symm)
    simp [test_expect_extract, test_expect_extract_body, h, skipIfRaisesToolNotInstalled,
      fsExists, hfix, hcmp, Verdict.isFailed]
  · have hcmp : pyStrip (fsRead fs (filename ++ ".extract")) = pyStrip s := by
      rw [fsRead, hfix, heq]
      simp [pyStrip, stripList, rstripList]
    simp [test_expect_extract, test_expect_extract_body, h, skipIfRaisesToolNotInstalled,
      fsExists, hfix, hcmp]
  · by_cases hcmp : pyStrip (fsRead fs (filename ++ ".extract")) = pyStrip s <;>
      simp [test_expect_extract, test_expect_extract_body, h, skipIfRaisesToolNotInstalled,
        fsExists, hfix, hcmp]
  · have hsz : fsSize fs (filename ++ ".file_date") = 0 := by
      simp [fsSize, fsRead, hfix]
    simp [test_expect_file_date, test_expect_file_date_body, h, skipIfRaisesToolNotInstalled,
      fsExists, hfix, hsz, Verdict.isSkipped]
  · have hS2 : '/' ∉ nm.data := by simpa using hS
    have hsz : fsSize fs (filename ++ ".file_name") = 0 := by
      simp [fsSize, fsRead, hfix]
    simp [test_expect_file_name, test_expect_file_name_body, h, hA, hS2,
      skipIfRaisesToolNotInstalled, fsExists, hfix, hsz, Verdict.isSkipped]

/-- Witness for C10: with all three fixtures of `f.csv` present but empty,
the extract check fails while the date and filename checks skip. -/
theorem empty_fixture_asymmetry_witness :
    (test_expect_extract goodImp "f.csv" emptyFixtureFS).1.isFailed = true
    ∧ (test_expect_file_date goodImp "f.csv" emptyFixtureFS).1.isSkipped = true
    ∧ (test_expect_file_name goodImp "f.csv" emptyFixtureFS).1.isSkipped = true :=
  ⟨((empty_fixture_asymmetry goodImp "f.csv" emptyFixtureFS
      "2024-01-15 * \"Payee\" \"Narration\"\n" ⟨2024, 1, 15⟩ "statement.mybank.csv").1
        rfl rfl).1 (by decide),
   ((empty_fixture_asymmetry goodImp "f.csv" emptyFixtureFS
      "2024-01-15 * \"Payee\" \"Narration\"\n" ⟨2024, 1, 15⟩ "statement.mybank.csv").2.1
        rfl rfl).1,
   ((empty_fixture_asymmetry goodImp "f.csv" emptyFixtureFS
      "2024-01-15 * \"Payee\" \"Narration\"\n" ⟨2024, 1, 15⟩ "statement.mybank.csv").2.2
        rfl (by decide) (by decide) rfl).1⟩

end Regression
